import Mathlib

/-
  Verification of the vcs driver of the gover project (vcs.go).

  The Go code drives an external version-control tool (git) as a
  subprocess.  We embed it shallowly:

  * Go strings are Lean String; byte-level operations on ASCII data
    (strings.HasPrefix, version[4:], strings.Fields) are modelled through
    the character list of the string, which coincides with the byte view
    on the ASCII data involved.
  * The filesystem and the process environment are oracles: a StatFn
    answers os.Stat queries for the marker entry, and a World gives, for
    the i-th invocation of run1, the result of exec.LookPath, the exit
    status of the spawned command and its captured combined output.
  * run1 returns, besides the Go return value, the list of subprocesses
    it spawned (an Exec records working directory, tool and argument
    list) and the next invocation counter.  Logging is a side channel of
    the Go code and is not modelled.
  * The key/value pairing loop of run1 indexes keyval[i+1]; on an
    odd-length sequence the Go code panics.  We model this by returning
    none from the pairing function, so a run1/create/checkout result of
    none means an out-of-bounds panic.
-/

namespace Gover

/-- A vcsCmd describes how to use a version control system, mirroring the
Go struct vcsCmd of vcs.go. -/
structure vcsCmd where
  name : String
  cmd : String
  meta : String
  createCmd : String
  downloadCmd : String
  checkoutCmd : String
  deriving DecidableEq, Repr

/-- vcsGit describes how to use Git, with the template strings of vcs.go. -/
def vcsGit : vcsCmd :=
  { name := "Git"
    cmd := "git"
    meta := ".git"
    createCmd := "clone {repo} {dir} -b {branch}"
    downloadCmd := "checkout -f tags/{tag}"
    checkoutCmd := "checkout {version}" }

/-- vcsList lists the known version control systems (only git). -/
def vcsList : List vcsCmd := [vcsGit]

/-- vcsByCmd returns the version control system for the given command
name; the Go function returns a nil pointer when none matches, modelled
by Option. -/
def vcsByCmd (cmd : String) : Option vcsCmd :=
  vcsList.find? (fun vcs => vcs.cmd == cmd)

/-- getVcsByUrl: there is no other vcs except git, the url is ignored. -/
def getVcsByUrl (_url : String) : vcsCmd :=
  vcsGit

/-- parseVersion: strings.HasPrefix(version, "sha:") chooses between the
two shapes; version[4:] drops the four bytes of the prefix, here the four
characters, which agree because the prefix is ASCII.  The receiver is
unused, as in the Go method. -/
def vcsCmd.parseVersion (_v : vcsCmd) (version : String) : String × String :=
  if "sha:".toList.isPrefixOf version.toList then
    ("master", String.mk (version.toList.drop 4))
  else
    (version, "")

/-- Outcome of an os.Stat call, as far as exists inspects it: success
(none), an error for which os.IsNotExist holds, or any other error. -/
inductive StatErr where
  | notExist
  | other
  deriving DecidableEq, Repr

/-- os.IsNotExist: false on a nil error, true exactly on the notExist
error. -/
def isNotExist : Option StatErr → Bool
  | some StatErr.notExist => true
  | _ => false

/-- A stat oracle: given a directory and an entry name, the outcome of
os.Stat(path.Join(dir, entry)). -/
abbrev StatFn := String → String → Option StatErr

/-- exists returns err == nil || !os.IsNotExist(err) for the stat of the
meta entry inside dst, as in vcs.go. -/
def vcsCmd.exists (stat : StatFn) (v : vcsCmd) (dst : String) : Bool :=
  let err := stat dst v.meta
  err == none || !(isNotExist err)

deriving instance DecidableEq for Except

/-- The two error shapes run1 can return: the exec.LookPath failure and a
non-zero exit of the spawned command.  Neither carries the captured
output buffer, matching the Go code which returns nil bytes with the
error. -/
inductive RunError where
  | toolNotFound
  | execFailed
  deriving DecidableEq, Repr

/-- A spawned subprocess: working directory, tool binary and argument
list. -/
structure Exec where
  dir : String
  tool : String
  args : List String
  deriving DecidableEq, Repr

/-- The process-environment oracle, indexed by the run1 invocation
counter: whether exec.LookPath succeeds, whether the spawned command
exits zero, and its captured combined stdout+stderr. -/
structure World where
  lookPathOk : Nat → Bool
  exitOk : Nat → Bool
  output : Nat → String

/-- The key/value pairing loop of run1: for i := 0; i < len(keyval);
i += 2, it stores keyval[i] -> keyval[i+1].  On an odd-length list the
read keyval[i+1] is out of bounds (a Go panic), modelled as none.  Later
pairs override earlier ones, as successive Go map stores do. -/
def pairs : List String → Option (List (String × String))
  | [] => some []
  | [_] => none
  | k :: val :: rest => (pairs rest).map (fun ps => (k, val) :: ps)

/-- The Go map m built from the pairs, as a lookup function; a later pair
with the same key wins. -/
def buildMap (ps : List (String × String)) : String → Option String :=
  ps.foldl (fun m p => fun k => if k = p.1 then some p.2 else m k) (fun _ => none)

/-- strings.Fields: split on whitespace, keeping only the non-empty
tokens. -/
def fields (s : String) : List String :=
  ((s.toList.splitOnP Char.isWhitespace).filter (fun l => l ≠ [])).map String.mk

/-- Modelled from the spec: the helper expand of the repository is not
under src/ (run1 calls it at vcs.go:126).  Per the spec, expansion
substitutes placeholders of the form given by the template placeholder
grammar inside a single pre-split token: each maximal brace-delimited
chunk names a key; if the key is bound in the map the chunk is replaced
by its value, and an unmatched key is left literally in place
(silent-miss).  A substituted value is spliced verbatim and is not
re-scanned.  The scan carries the characters of a pending key once an
opening brace has been seen; a brace left unclosed at the end of the
token stays literal. -/
def expandAux (m : String → Option String) : List Char → Option (List Char) → List Char
  | [], none => []
  | [], some pend => Char.ofNat 123 :: pend.reverse
  | c :: rest, none =>
    if c = Char.ofNat 123 then expandAux m rest (some [])
    else c :: expandAux m rest none
  | c :: rest, some pend =>
    if c = Char.ofNat 125 then
      match m (String.mk pend.reverse) with
      | some val => val.toList ++ expandAux m rest none
      | none => Char.ofNat 123 :: (pend.reverse ++ Char.ofNat 125 :: expandAux m rest none)
    else expandAux m rest (some (c :: pend))

/-- Modelled from the spec: expand on a whole token, see expandAux. -/
def expand (m : String → Option String) (s : String) : String :=
  String.mk (expandAux m s.toList none)

/-- The argument list run1 builds: the template is split into tokens
first, then each token is expanded independently. -/
def substArgs (m : String → Option String) (cmdline : String) : List String :=
  (fields cmdline).map (expand m)

/-- run1, the generalized implementation of run and runOutput
(vcs.go:119-151): build the substitution map from the flat keyval list,
split the command line into fields and expand each, then resolve the
tool binary (failing before any subprocess is spawned), spawn the
command in dir capturing combined output, and return the buffer only on
success.  The verbose flag only gates failure logging, which is not
modelled.  A none result is the out-of-bounds panic of the pairing loop. -/
def run1 (w : World) (n : Nat) (v : vcsCmd) (dir cmdline : String)
    (keyval : List String) (verbose : Bool) :
    Option (Except RunError String × List Exec × Nat) :=
  match pairs keyval with
  | none => none
  | some ps =>
    let m := buildMap ps
    let args := substArgs m cmdline
    if w.lookPathOk n then
      if w.exitOk n then
        some (Except.ok (w.output n), [⟨dir, v.cmd, args⟩], n + 1)
      else
        some (Except.error RunError.execFailed, [⟨dir, v.cmd, args⟩], n + 1)
    else
      some (Except.error RunError.toolNotFound, [], n + 1)

/-- Drop the output buffer of a run1 result, keeping trace and counter. -/
def discardOutput (r : Except RunError String × List Exec × Nat) :
    Except RunError Unit × List Exec × Nat :=
  (r.1.map (fun _ => ()), r.2.1, r.2.2)

/-- run: run1 with verbose output on failure, discarding the buffer. -/
def run (w : World) (n : Nat) (v : vcsCmd) (dir cmd : String) (keyval : List String) :
    Option (Except RunError Unit × List Exec × Nat) :=
  (run1 w n v dir cmd keyval true).map discardOutput

/-- runVerboseOnly: like run but only logs in verbose mode; the logging
difference is outside the model. -/
def runVerboseOnly (w : World) (n : Nat) (v : vcsCmd) (dir cmd : String)
    (keyval : List String) :
    Option (Except RunError Unit × List Exec × Nat) :=
  (run1 w n v dir cmd keyval false).map discardOutput

/-- runOutput: like run but returns the output of the command. -/
def runOutput (w : World) (n : Nat) (v : vcsCmd) (dir cmd : String)
    (keyval : List String) :
    Option (Except RunError String × List Exec × Nat) :=
  run1 w n v dir cmd keyval true

/-- create (vcs.go:74-83): run the create template from ".", and when a
non-empty commit was parsed additionally run the checkout template
inside dir; the first error aborts. -/
def create (w : World) (n : Nat) (v : vcsCmd) (dir repo version : String) :
    Option (Except RunError Unit × List Exec × Nat) :=
  let tc := v.parseVersion version
  match run w n v "." v.createCmd ["dir", dir, "repo", repo, "branch", tc.1] with
  | none => none
  | some (Except.error e, t, n1) => some (Except.error e, t, n1)
  | some (Except.ok _, t, n1) =>
    if tc.2 ≠ "" then
      match run w n1 v dir v.checkoutCmd ["version", tc.2] with
      | none => none
      | some (r, t2, n2) => some (r, t ++ t2, n2)
    else
      some (Except.ok (), t, n1)

/-- checkout (vcs.go:86-93): switch the repository to the version, via
the checkout template when a commit was parsed and the download template
otherwise. -/
def checkout (w : World) (n : Nat) (v : vcsCmd) (dir version : String) :
    Option (Except RunError Unit × List Exec × Nat) :=
  let tc := v.parseVersion version
  if tc.2 ≠ "" then
    run w n v dir v.checkoutCmd ["version", tc.2]
  else
    run w n v dir v.downloadCmd ["tag", tc.1]

/-- The subprocess the create template gives rise to. -/
def createExec (v : vcsCmd) (dir repo tag : String) : Exec :=
  ⟨".", v.cmd, substArgs (buildMap [("dir", dir), ("repo", repo), ("branch", tag)]) v.createCmd⟩

/-- The subprocess the checkout-to-commit template gives rise to. -/
def commitExec (v : vcsCmd) (dir commit : String) : Exec :=
  ⟨dir, v.cmd, substArgs (buildMap [("version", commit)]) v.checkoutCmd⟩

/-- The subprocess the update-to-tag template gives rise to. -/
def tagExec (v : vcsCmd) (dir tag : String) : Exec :=
  ⟨dir, v.cmd, substArgs (buildMap [("tag", tag)]) v.downloadCmd⟩

/-- In-bounds condition of the pairing loop: the read keyval[i+1] at
every even index i below the length stays inside the list. -/
def pairingIndexInBounds (keyval : List String) : Prop :=
  ∀ i, i < keyval.length → i % 2 = 0 → i + 1 < keyval.length

/-- A world in which the tool resolves and every command succeeds. -/
def allOk : World :=
  { lookPathOk := fun _ => true, exitOk := fun _ => true, output := fun _ => "" }

/-- A world in which exec.LookPath fails. -/
def noTool : World :=
  { lookPathOk := fun _ => false, exitOk := fun _ => true, output := fun _ => "" }

/-- A world in which the tool resolves but every command exits non-zero,
with captured output "boom". -/
def allFail : World :=
  { lookPathOk := fun _ => true, exitOk := fun _ => false, output := fun _ => "boom" }

/-- Case-free description of run1 once the pairing succeeded. -/
theorem run1_eq (w : World) (n : Nat) (v : vcsCmd) (dir cmdline : String)
    (keyval : List String) (ps : List (String × String)) (verbose : Bool)
    (h : pairs keyval = some ps) :
    run1 w n v dir cmdline keyval verbose =
      if w.lookPathOk n then
        if w.exitOk n then
          some (Except.ok (w.output n),
            [⟨dir, v.cmd, substArgs (buildMap ps) cmdline⟩], n + 1)
        else
          some (Except.error RunError.execFailed,
            [⟨dir, v.cmd, substArgs (buildMap ps) cmdline⟩], n + 1)
      else
        some (Except.error RunError.toolNotFound, [], n + 1) := by
  unfold run1
  rw [h]

/-- Case-free description of run once the pairing succeeded. -/
theorem run_eq (w : World) (n : Nat) (v : vcsCmd) (dir cmdline : String)
    (keyval : List String) (ps : List (String × String))
    (h : pairs keyval = some ps) :
    run w n v dir cmdline keyval =
      if w.lookPathOk n then
        if w.exitOk n then
          some (Except.ok (),
            [⟨dir, v.cmd, substArgs (buildMap ps) cmdline⟩], n + 1)
        else
          some (Except.error RunError.execFailed,
            [⟨dir, v.cmd, substArgs (buildMap ps) cmdline⟩], n + 1)
      else
        some (Except.error RunError.toolNotFound, [], n + 1) := by
  unfold run
  rw [run1_eq w n v dir cmdline keyval ps true h]
  cases w.lookPathOk n <;> cases w.exitOk n <;> simp [discardOutput, Except.map]

/-- run never returns the panic marker once the pairing succeeds. -/
theorem run_isSome (w : World) (n : Nat) (v : vcsCmd) (dir cmdline : String)
    (keyval : List String) (ps : List (String × String))
    (h : pairs keyval = some ps) :
    (run w n v dir cmdline keyval).isSome = true := by
  rw [run_eq w n v dir cmdline keyval ps h]
  cases w.lookPathOk n <;> cases w.exitOk n <;> simp

/-- Claim C3: for every version string starting with the literal prefix
"sha:", parseVersion returns the tag "master" and the commit obtained by
removing the first four characters of the version. -/
theorem parseVersion_sha_form (v : vcsCmd) (version : String)
    (h : "sha:".toList.isPrefixOf version.toList = true) :
    v.parseVersion version = ("master", String.mk (version.toList.drop 4)) := by
  unfold vcsCmd.parseVersion
  rw [if_pos h]

/-- Witness for C3 at version "sha:abc123". -/
theorem parseVersion_sha_form_witness :
    vcsGit.parseVersion "sha:abc123" = ("master", "abc123") := by
  have h := parseVersion_sha_form vcsGit "sha:abc123" (by decide)
  rw [h]
  decide

/-- Claim C4: for every version string not starting with "sha:",
parseVersion returns the version itself as the tag and an empty commit;
parseVersion is total, so any string is accepted without validation. -/
theorem parseVersion_plain_form (v : vcsCmd) (version : String)
    (h : "sha:".toList.isPrefixOf version.toList = false) :
    v.parseVersion version = (version, "") := by
  unfold vcsCmd.parseVersion
  rw [if_neg]
  intro hp
  rw [hp] at h
  exact Bool.noConfusion h

/-- Witness for C4 at version "v1.2.0". -/
theorem parseVersion_plain_form_witness :
    vcsGit.parseVersion "v1.2.0" = ("v1.2.0", "") := by
  have h := parseVersion_plain_form vcsGit "v1.2.0" (by decide)
  rw [h]

/-- Claim C5: exists returns true when the stat of the marker entry
inside the directory succeeds or fails with any error other than
does-not-exist, and returns false only when the check cleanly reports
the marker entry absent. -/
theorem exists_true_unless_clean_absence (stat : StatFn) (v : vcsCmd) (dst : String) :
    (vcsCmd.exists stat v dst = true ↔
      (stat dst v.meta = none ∨ stat dst v.meta = some StatErr.other)) ∧
    (vcsCmd.exists stat v dst = false ↔ stat dst v.meta = some StatErr.notExist) := by
  unfold vcsCmd.exists
  cases h : stat dst v.meta with
  | none => simp [h, isNotExist]
  | some e => cases e <;> simp [h, isNotExist]

/-- Claim C1: create first runs the create template with keys dir, repo,
branch bound to the directory, the repository locator and the parsed
tag, from the working directory "."; exactly when the parsed commit is
non-empty and the first step succeeded, it then runs the
checkout-to-commit template inside dir with key version bound to the
commit; on a tool-resolution failure or a non-zero exit of the first
step the second step is not executed. -/
theorem create_runs_create_then_conditional_commit_checkout
    (w : World) (n : Nat) (v : vcsCmd) (dir repo version : String) :
    (w.lookPathOk n = false →
      create w n v dir repo version =
        some (Except.error RunError.toolNotFound, [], n + 1)) ∧
    (w.lookPathOk n = true → w.exitOk n = false →
      create w n v dir repo version =
        some (Except.error RunError.execFailed,
          [createExec v dir repo (v.parseVersion version).1], n + 1)) ∧
    (w.lookPathOk n = true → w.exitOk n = true → (v.parseVersion version).2 = "" →
      create w n v dir repo version =
        some (Except.ok (), [createExec v dir repo (v.parseVersion version).1], n + 1)) ∧
    (w.lookPathOk n = true → w.exitOk n = true → (v.parseVersion version).2 ≠ "" →
      create w n v dir repo version =
        (run w (n + 1) v dir v.checkoutCmd ["version", (v.parseVersion version).2]).map
          (fun r => (r.1, createExec v dir repo (v.parseVersion version).1 :: r.2.1, r.2.2))) := by
  have hr := run_eq w n v "." v.createCmd
    ["dir", dir, "repo", repo, "branch", (v.parseVersion version).1]
    [("dir", dir), ("repo", repo), ("branch", (v.parseVersion version).1)] rfl
  refine ⟨fun h1 => ?_, fun h1 h2 => ?_, fun h1 h2 h3 => ?_, fun h1 h2 h3 => ?_⟩
  · simp [create, hr, h1]
  · simp [create, hr, h1, h2, createExec]
  · simp [create, hr, h1, h2, h3, createExec]
  · simp only [create, hr, h1, h2, createExec]
    simp only [h3, ne_eq, not_false_iff, if_true]
    cases hc : run w (n + 1) v dir v.checkoutCmd ["version", (v.parseVersion version).2] with
    | none => simp [hc]
    | some r => simp [hc]

/-- Witness for C1: the scenario of the spec, with every command
succeeding; the create template runs first with branch master, then the
commit checkout runs inside the target directory. -/
theorem create_runs_create_then_conditional_commit_checkout_witness :
    create allOk 0 vcsGit "/tmp/w" "https://example.com/r.git" "sha:abc123" =
      some (Except.ok (),
        [⟨".", "git", ["clone", "https://example.com/r.git", "/tmp/w", "-b", "master"]⟩,
         ⟨"/tmp/w", "git", ["checkout", "abc123"]⟩], 2) := by
  have h := (create_runs_create_then_conditional_commit_checkout allOk 0 vcsGit "/tmp/w"
    "https://example.com/r.git" "sha:abc123").2.2.2 rfl rfl (by decide)
  rw [h]
  decide

/-- Claim C2: checkout executes exactly one template: the
checkout-to-commit template inside dir with key version bound to the
commit when the parsed commit is non-empty, and the update-to-tag
template inside dir with key tag bound to the parsed tag otherwise; in
each case the trace holds exactly the one corresponding subprocess. -/
theorem checkout_runs_exactly_one_template
    (w : World) (n : Nat) (v : vcsCmd) (dir version : String) :
    (w.lookPathOk n = false →
      checkout w n v dir version =
        some (Except.error RunError.toolNotFound, [], n + 1)) ∧
    ((v.parseVersion version).2 ≠ "" → w.lookPathOk n = true →
      checkout w n v dir version =
        some ((if w.exitOk n then Except.ok () else Except.error RunError.execFailed),
          [commitExec v dir (v.parseVersion version).2], n + 1)) ∧
    ((v.parseVersion version).2 = "" → w.lookPathOk n = true →
      checkout w n v dir version =
        some ((if w.exitOk n then Except.ok () else Except.error RunError.execFailed),
          [tagExec v dir (v.parseVersion version).1], n + 1)) := by
  have hrc := run_eq w n v dir v.checkoutCmd
    ["version", (v.parseVersion version).2]
    [("version", (v.parseVersion version).2)] rfl
  have hrt := run_eq w n v dir v.downloadCmd
    ["tag", (v.parseVersion version).1]
    [("tag", (v.parseVersion version).1)] rfl
  refine ⟨fun h1 => ?_, fun hc h1 => ?_, fun hc h1 => ?_⟩
  · by_cases hcm : (v.parseVersion version).2 = "" <;>
      simp [checkout, hrc, hrt, hcm, h1]
  · simp only [checkout, hc, ne_eq, not_false_iff, if_true, hrc, h1, commitExec]
    cases w.exitOk n <;> simp
  · simp [checkout, hc, hrt, h1, tagExec]
    cases w.exitOk n <;> simp

/-- Witness for C2: the scenario of the spec, checking out an exact
commit; only the checkout-to-commit subprocess appears in the trace. -/
theorem checkout_runs_exactly_one_template_witness :
    checkout allOk 0 vcsGit "/tmp/w" "sha:deadbeef" =
      some (Except.ok (), [⟨"/tmp/w", "git", ["checkout", "deadbeef"]⟩], 1) := by
  have h := (checkout_runs_exactly_one_template allOk 0 vcsGit "/tmp/w" "sha:deadbeef").2.1
    (by decide) rfl
  rw [h]
  decide

/-- Claim C6: run1 splits the template into whitespace-separated tokens
before substitution and substitutes within each token independently, so
every spawned subprocess receives one argument per template token: the
argument list is the expansion map applied over the fields of the
template, and its length equals the number of fields; a substitution
value containing whitespace therefore never splits into several
arguments. -/
theorem run1_splits_before_substitution
    (w : World) (n : Nat) (v : vcsCmd) (dir cmdline : String)
    (keyval : List String) (verbose : Bool) (ps : List (String × String))
    (res : Except RunError String) (t : List Exec) (n2 : Nat)
    (hps : pairs keyval = some ps)
    (hrun : run1 w n v dir cmdline keyval verbose = some (res, t, n2)) :
    ∀ e ∈ t, e.args = (fields cmdline).map (expand (buildMap ps)) ∧
      e.args.length = (fields cmdline).length := by
  rw [run1_eq w n v dir cmdline keyval ps verbose hps] at hrun
  intro e he
  cases hl : w.lookPathOk n <;> rw [hl] at hrun
  · simp at hrun
    obtain ⟨-, ht, -⟩ := hrun
    subst ht
    simp at he
  · cases hx : w.exitOk n <;> rw [hx] at hrun <;>
      simp at hrun <;> obtain ⟨-, ht, -⟩ := hrun <;> subst ht <;>
      simp at he <;> simp [he, substArgs]

/-- Witness for C6: the template of the spec with a repository locator
containing a space; the run yields exactly the five arguments of the
five template tokens, the locator intact as one argument. -/
theorem run1_splits_before_substitution_witness :
    Exec.args ⟨".", "git", ["clone", "https://x/y z.git", "/tmp/w", "-b", "master"]⟩ =
      (fields "clone {repo} {dir} -b {branch}").map
        (expand (buildMap [("repo", "https://x/y z.git"), ("dir", "/tmp/w"), ("branch", "master")])) ∧
    (Exec.args ⟨".", "git", ["clone", "https://x/y z.git", "/tmp/w", "-b", "master"]⟩).length =
      (fields "clone {repo} {dir} -b {branch}").length := by
  have h := run1_splits_before_substitution allOk 0 vcsGit "." "clone {repo} {dir} -b {branch}"
    ["repo", "https://x/y z.git", "dir", "/tmp/w", "branch", "master"] true
    [("repo", "https://x/y z.git"), ("dir", "/tmp/w"), ("branch", "master")]
    (Except.ok "") [⟨".", "git", ["clone", "https://x/y z.git", "/tmp/w", "-b", "master"]⟩] 1
    rfl (by decide)
  exact h _ (by simp)

/-- Claim C7: when the tool identifier does not resolve, run1 returns the
tool-not-found error with an empty spawn trace: no subprocess runs and
the target directory is untouched. -/
theorem run1_tool_not_found_spawns_nothing
    (w : World) (n : Nat) (v : vcsCmd) (dir cmdline : String)
    (keyval : List String) (verbose : Bool) (ps : List (String × String))
    (hps : pairs keyval = some ps) (h : w.lookPathOk n = false) :
    run1 w n v dir cmdline keyval verbose =
      some (Except.error RunError.toolNotFound, [], n + 1) := by
  rw [run1_eq w n v dir cmdline keyval ps verbose hps, h]
  simp

/-- Witness for C7: a world without the git binary. -/
theorem run1_tool_not_found_spawns_nothing_witness :
    run1 noTool 0 vcsGit "/tmp/w" "checkout {version}" ["version", "deadbeef"] true =
      some (Except.error RunError.toolNotFound, [], 1) :=
  run1_tool_not_found_spawns_nothing noTool 0 vcsGit "/tmp/w" "checkout {version}"
    ["version", "deadbeef"] true [("version", "deadbeef")] rfl rfl

/-- Claim C8: once the tool resolved, run1 returns the captured buffer
exactly on a zero exit; on a non-zero exit it returns the exec-failed
error, whose type carries no buffer, so the captured output is never
handed back to the caller on failure. -/
theorem run1_returns_buffer_only_on_success
    (w : World) (n : Nat) (v : vcsCmd) (dir cmdline : String)
    (keyval : List String) (verbose : Bool) (ps : List (String × String))
    (hps : pairs keyval = some ps) (hl : w.lookPathOk n = true) :
    (w.exitOk n = false →
      run1 w n v dir cmdline keyval verbose =
        some (Except.error RunError.execFailed,
          [⟨dir, v.cmd, substArgs (buildMap ps) cmdline⟩], n + 1)) ∧
    (w.exitOk n = true →
      run1 w n v dir cmdline keyval verbose =
        some (Except.ok (w.output n),
          [⟨dir, v.cmd, substArgs (buildMap ps) cmdline⟩], n + 1)) := by
  rw [run1_eq w n v dir cmdline keyval ps verbose hps, hl]
  constructor <;> intro hx <;> rw [hx] <;> simp

/-- Witness for C8: a world in which git exits non-zero with captured
output "boom"; the result is the error and the buffer does not appear in
it. -/
theorem run1_returns_buffer_only_on_success_witness :
    run1 allFail 0 vcsGit "/tmp/w" "checkout {version}" ["version", "deadbeef"] true =
      some (Except.error RunError.execFailed, [⟨"/tmp/w", "git", ["checkout", "deadbeef"]⟩], 1) := by
  have h := (run1_returns_buffer_only_on_success allFail 0 vcsGit "/tmp/w" "checkout {version}"
    ["version", "deadbeef"] true [("version", "deadbeef")] rfl rfl).1 rfl
  rw [h]
  decide

/-- Claim C9: the degenerate version string "sha:" parses to the tag
"master" with an empty commit, so checkout falls to the update-to-tag
command with tag master and create performs no second commit-pinning
step: both coincide with a single run of the corresponding template with
the tag master. -/
theorem sha_empty_commit_degrades_to_master :
    (∀ v : vcsCmd, v.parseVersion "sha:" = ("master", "")) ∧
    (∀ (w : World) (n : Nat) (v : vcsCmd) (dir : String),
      checkout w n v dir "sha:" = run w n v dir v.downloadCmd ["tag", "master"]) ∧
    (∀ (w : World) (n : Nat) (v : vcsCmd) (dir repo : String),
      create w n v dir repo "sha:" =
        run w n v "." v.createCmd ["dir", dir, "repo", repo, "branch", "master"]) := by
  have hp : ∀ v : vcsCmd, v.parseVersion "sha:" = ("master", "") := by
    intro v
    unfold vcsCmd.parseVersion
    decide
  refine ⟨hp, fun w n v dir => ?_, fun w n v dir repo => ?_⟩
  · simp [checkout, hp]
  · simp only [create, hp]
    cases hc : run w n v "." v.createCmd ["dir", dir, "repo", repo, "branch", "master"] with
    | none => simp
    | some r =>
      obtain ⟨r1, t1, n1⟩ := r
      cases r1 <;> simp

/-- The pairing of the flat key/value list succeeds exactly on
even-length lists. -/
theorem pairs_isSome_iff : ∀ l : List String, (pairs l).isSome = true ↔ l.length % 2 = 0
  | [] => by simp [pairs]
  | [a] => by simp [pairs]
  | a :: b :: rest => by
    have ih := pairs_isSome_iff rest
    simp only [pairs, List.length_cons]
    cases hp : pairs rest with
    | none =>
      rw [hp] at ih
      simp at ih ⊢
      omega
    | some ps =>
      rw [hp] at ih
      simp at ih ⊢
      omega

/-- create never hits the out-of-bounds read of the pairing loop. -/
theorem create_isSome (w : World) (n : Nat) (v : vcsCmd) (dir repo version : String) :
    (create w n v dir repo version).isSome = true := by
  have h1 := run_isSome w n v "." v.createCmd
    ["dir", dir, "repo", repo, "branch", (v.parseVersion version).1]
    [("dir", dir), ("repo", repo), ("branch", (v.parseVersion version).1)] rfl
  simp only [create]
  cases h : run w n v "." v.createCmd
      ["dir", dir, "repo", repo, "branch", (v.parseVersion version).1] with
  | none => rw [h] at h1; simp at h1
  | some r =>
    obtain ⟨r1, t1, n1⟩ := r
    cases r1 with
    | error e => simp
    | ok u =>
      by_cases hc : (v.parseVersion version).2 = ""
      · simp [hc]
      · have h2 := run_isSome w n1 v dir v.checkoutCmd
          ["version", (v.parseVersion version).2]
          [("version", (v.parseVersion version).2)] rfl
        simp only [hc, ne_eq, not_false_iff, if_true]
        cases h3 : run w n1 v dir v.checkoutCmd ["version", (v.parseVersion version).2] with
        | none => rw [h3] at h2; simp at h2
        | some r2 => simp

/-- checkout never hits the out-of-bounds read of the pairing loop. -/
theorem checkout_isSome (w : World) (n : Nat) (v : vcsCmd) (dir version : String) :
    (checkout w n v dir version).isSome = true := by
  simp only [checkout]
  by_cases hc : (v.parseVersion version).2 = ""
  · simp only [hc, ne_eq, not_true, if_false]
    exact run_isSome w n v dir v.downloadCmd
      ["tag", (v.parseVersion version).1]
      [("tag", (v.parseVersion version).1)] rfl
  · simp only [hc, ne_eq, not_false_iff, if_true]
    exact run_isSome w n v dir v.checkoutCmd
      ["version", (v.parseVersion version).2]
      [("version", (v.parseVersion version).2)] rfl

/-- Claim C10: the pairing loop of run1 reads keyval at i+1 for every
even index i below the length, which stays in bounds exactly for
even-length sequences; every internal call site of run passes an
even-length sequence (six elements from create, two from create and from
both checkout branches), so neither create nor checkout ever reaches the
out-of-bounds read, modelled as the none result. -/
theorem pairing_in_bounds_iff_even_and_callers_even :
    (∀ keyval : List String, pairingIndexInBounds keyval ↔ keyval.length % 2 = 0) ∧
    (∀ keyval : List String, (pairs keyval).isSome = true ↔ keyval.length % 2 = 0) ∧
    (∀ (w : World) (n : Nat) (v : vcsCmd) (dir repo version : String),
      (create w n v dir repo version).isSome = true) ∧
    (∀ (w : World) (n : Nat) (v : vcsCmd) (dir version : String),
      (checkout w n v dir version).isSome = true) := by
  refine ⟨fun keyval => ?_, pairs_isSome_iff, create_isSome, checkout_isSome⟩
  unfold pairingIndexInBounds
  constructor
  · intro h
    by_contra hodd
    have h1 : keyval.length % 2 = 1 := by omega
    have h2 := h (keyval.length - 1) (by omega) (by omega)
    omega
  · intro h i hi hev
    omega

end Gover
